import Mathlib

/-!
Shallow embedding of the Med Mirror capture/upload component and the
face-aging prediction proxy route, translated from the repository source
(the ImageUpload React component and the Next.js POST handler).

Modelling conventions:
- React `useState` fields of the ImageUpload component are gathered into
  one record `ComponentState`; a handler becomes a pure function from the
  pre-state (plus its inputs) to the post-state.
- `localStorage` is modelled by the record `Cache` holding the two keys
  the component uses, `cachedImage` and `cachedImageTimestamp` (the
  timestamp is stored as a decimal string in the browser and round-trips
  through `toString` / `parseInt`, so it is carried as a `Nat`).
- Calls to the `onImageUpload` callback are collected in an output list of
  the argument strings, in call order.
- `FileReader.readAsDataURL` is an opaque browser decoder: the data URL it
  would produce for a file is carried as the `dataUrl` field of `FileV`.
- `Date.now()` is passed in as a `Nat` parameter `now` (epoch millis).
-/

namespace MirrorMed

/-- A browser `File` as the component sees it: its declared media type and
the data URL that `FileReader.readAsDataURL` produces for it. -/
structure FileV where
  type : String
  dataUrl : String
deriving DecidableEq, Repr

/-- The two localStorage keys used by the component; `none` means the key
is absent. -/
structure Cache where
  cachedImage : Option String
  cachedImageTimestamp : Option Nat
deriving DecidableEq, Repr

/-- The `useState` fields of the ImageUpload component. The MediaStream is
modelled by an identifier. -/
structure ComponentState where
  uploadedImage : Option String
  uploadedFile : Option FileV
  isLoading : Bool
  showCamera : Bool
  stream : Option Nat
  faceAgingResult : Option String
  isProcessingAging : Bool
deriving DecidableEq, Repr

/-- Boolean test that `t` starts with `p`, modelling the JS
`t.startsWith(p)` used at part_000 line 31. It compares the underlying
character sequences (written on `String.data` so that the kernel can
evaluate it on literals). -/
def strStartsWith (t p : String) : Bool :=
  decide (t.data.take p.data.length = p.data)

/-- handleFileSelect (part_000 lines 29-60): rejects non-image media types
with an alert and no side effects; otherwise the FileReader onload handler
sets uploadedImage and uploadedFile, writes both cache keys, invokes the
upload callback with the new data URL, and resets isLoading. -/
def handleFileSelect (s : ComponentState) (c : Cache) (now : Nat) (file : FileV) :
    ComponentState × Cache × List String :=
  if !(strStartsWith file.type "image/") then
    (s, c, [])
  else
    let imageUrl := file.dataUrl
    ({ s with uploadedImage := some imageUrl, uploadedFile := some file,
              isLoading := false },
     { cachedImage := some imageUrl, cachedImageTimestamp := some now },
     [imageUrl])

/-- stopCamera (lines 153-159): stops the tracks of the current stream,
releases the stream reference and hides the camera view. -/
def stopCamera (s : ComponentState) : ComponentState :=
  { s with stream := none, showCamera := false }

/-- The video element dimensions consulted by capturePhoto. -/
structure VideoEl where
  videoWidth : Nat
  videoHeight : Nat
deriving DecidableEq, Repr

/-- capturePhoto (lines 105-151): if the video has a zero dimension it only
alerts and returns (no state, cache or callback effect). Otherwise the
frame is drawn to the canvas and `canvas.toBlob` is invoked; `blob` is its
result (`none` models a null blob, which again only alerts). A non-null
blob is wrapped in a File of type image/jpeg and fed through
handleFileSelect, then stopCamera runs. -/
def capturePhoto (video : VideoEl) (blob : Option String) (s : ComponentState)
    (c : Cache) (now : Nat) : ComponentState × Cache × List String :=
  if video.videoWidth = 0 ∨ video.videoHeight = 0 then
    (s, c, [])
  else
    match blob with
    | some data =>
      let file : FileV := { type := "image/jpeg", dataUrl := data }
      let r := handleFileSelect s c now file
      (stopCamera r.1, r.2.1, r.2.2)
    | none => (s, c, [])

/-- handleRemoveImage (lines 184-193): clears uploadedImage, uploadedFile
and faceAgingResult, removes both cache keys, and invokes the upload
callback with the empty string. -/
def handleRemoveImage (s : ComponentState) (_c : Cache) :
    ComponentState × Cache × List String :=
  ({ s with uploadedImage := none, uploadedFile := none, faceAgingResult := none },
   { cachedImage := none, cachedImageTimestamp := none },
   [""])

/-- 24 hours in milliseconds, as computed at line 237. -/
def twentyFourHours : Nat := 24 * 60 * 60 * 1000

/-- The cache-restore effect run on mount (lines 229-249): if both keys are
present (a stored empty-string image is falsy in JS and skips the block)
and the entry is younger than 24 hours, restore uploadedImage and fire the
upload callback; if it is 24 hours old or older, remove both keys and
surface nothing. -/
def loadCachedImage (s : ComponentState) (c : Cache) (now : Nat) :
    ComponentState × Cache × List String :=
  match c.cachedImage, c.cachedImageTimestamp with
  | some cachedImage, some ts =>
    if cachedImage = "" then
      (s, c, [])
    else if now - ts < twentyFourHours then
      ({ s with uploadedImage := some cachedImage }, c, [cachedImage])
    else
      (s, { cachedImage := none, cachedImageTimestamp := none }, [])
  | _, _ => (s, c, [])

/-- The parameters the route passes to `openai.images.edit` (part_000 lines
431-447), apart from the image and prompt text. -/
structure GenRequest where
  model : String
  n : Nat
  size : String
  quality : String
deriving DecidableEq, Repr

/-- Outcome of the awaited `openai.images.edit` call: `ok b64` is a resolved
response whose `data[0].b64_json` field is `b64` (possibly absent), `err` is
a rejection (network error, quota, provider API error). -/
inductive OpenAIOutcome
| ok (b64 : Option String)
| err
deriving DecidableEq, Repr

/-- A `NextResponse.json` reply of the route: `ok` is the 200 body
`prediction / model_used / timestamp`, `err` is a `status`-coded error
body. -/
inductive ProxyResponse
| ok (prediction : Option String) (model_used : String) (timestamp : String)
| err (status : Nat) (error : String)
deriving DecidableEq, Repr

/-- HTTP status of a reply (NextResponse.json defaults to 200). -/
def statusOf : ProxyResponse → Nat
  | ProxyResponse.ok _ _ _ => 200
  | ProxyResponse.err status _ => status

/-- The POST handler of the face-aging route (part_000 lines 401-469).
`parseJson` models `JSON.parse` (an opaque library decoder; `none` means it
throws), `apiKeyConfigured` models the presence of the OPENAI_API_KEY
environment variable, `image` and `smashData` are the two form fields
(`none` = absent; a present-but-empty `smash` string is falsy in JS and is
treated like an absent field by the `!smashData` test), `outcome` is the
result of the downstream generation call and `timestamp` the ISO string of
`new Date()`. Returns the `openai.images.edit` parameters when that call is
made, and the JSON reply. -/
def POST (parseJson : String → Option String) (apiKeyConfigured : Bool)
    (image : Option String) (smashData : Option String)
    (outcome : OpenAIOutcome) (timestamp : String) :
    Option GenRequest × ProxyResponse :=
  match image, smashData with
  | some _, some smash =>
    if smash = "" then
      (none, ProxyResponse.err 400 "Both image and smash data are required")
    else if !apiKeyConfigured then
      (none, ProxyResponse.err 500 "OpenAI API key not configured")
    else
      match parseJson smash with
      | none => (none, ProxyResponse.err 400 "Invalid JSON in smash data")
      | some _ =>
        let genReq : GenRequest :=
          { model := "gpt-image-1", n := 1, size := "1024x1024", quality := "medium" }
        match outcome with
        | OpenAIOutcome.err =>
          (some genReq,
           ProxyResponse.err 500 "Failed to process face aging prediction")
        | OpenAIOutcome.ok b64 =>
          (some genReq,
           ProxyResponse.ok (b64.map (fun d => "data:image/png;base64," ++ d))
             "dall-e-2" timestamp)
  | _, _ => (none, ProxyResponse.err 400 "Both image and smash data are required")

/-- The request passes all three validation checks of the route (fields
present and truthy, API key configured, smash data parses), so control
reaches the downstream generation call. -/
def passesValidation (parseJson : String → Option String) (apiKeyConfigured : Bool)
    (image : Option String) (smashData : Option String) : Prop :=
  image.isSome = true ∧
  (∃ smash, smashData = some smash ∧ smash ≠ "" ∧ (parseJson smash).isSome = true) ∧
  apiKeyConfigured = true

/-- handleFaceAging (part_000 lines 195-226): without an uploadedFile it
only alerts; otherwise it posts to the route and, when the response is ok,
stores `result.prediction` as faceAgingResult (a null prediction overwrites
any previous result with null); a non-ok status or thrown error leaves
faceAgingResult unchanged. isProcessingAging is reset in `finally`. -/
def handleFaceAging (s : ComponentState) (resp : ProxyResponse) : ComponentState :=
  match s.uploadedFile with
  | none => s
  | some _ =>
    match resp with
    | ProxyResponse.ok prediction _ _ =>
      { s with faceAgingResult := prediction, isProcessingAging := false }
    | ProxyResponse.err _ _ =>
      { s with isProcessingAging := false }

/-- The image the component renders in the HasImage view (line 298):
`faceAgingResult || uploadedImage`, where a null or empty faceAgingResult
is falsy and falls back to the uploaded image. -/
def displayedImage (s : ComponentState) : Option String :=
  match s.faceAgingResult with
  | some r => if r = "" then s.uploadedImage else some r
  | none => s.uploadedImage

/-- Camera hardware events: a getUserMedia acquisition of a stream (streams
are identified by a Nat) and the stopping of all tracks of a stream. -/
inductive CamEv
| acquire (id : Nat)
| stopTracks (id : Nat)
deriving DecidableEq, Repr

/-- One successful handleCameraClick (part_000 lines 66-103) starting from
the current `stream` state: getUserMedia resolves with a fresh stream `n`
(the prior stream, if any, is not stopped first), then `setStream n`
re-renders the component, at which point the cleanup of the
`useEffect ... [stream]` at lines 169-175 runs for the previous stream
value and stops its tracks. Returns the emitted event trace, in order, and
the new `stream` state. -/
def activateCameraEvents (cur : Option Nat) (n : Nat) : List CamEv × Option Nat :=
  (CamEv.acquire n ::
    (match cur with
     | some old => [CamEv.stopTracks old]
     | none => []),
   some n)

/-- A stream is live after a trace when it has been acquired and its tracks
have not been stopped. -/
def liveAfter (tr : List CamEv) (id : Nat) : Prop :=
  CamEv.acquire id ∈ tr ∧ CamEv.stopTracks id ∉ tr

instance (tr : List CamEv) (id : Nat) : Decidable (liveAfter tr id) := by
  unfold liveAfter; infer_instance

/-- The event trace of two successive successful handleCameraClick calls
from the no-stream state, acquiring streams `n` then `m`. -/
def twoActivations (n m : Nat) : List CamEv :=
  (activateCameraEvents none n).1 ++
    (activateCameraEvents (activateCameraEvents none n).2 m).1

/-! Theorems about the claims. -/

/-- C1 counterexample: a successful handleFileSelect with a valid image
file does NOT clear a previously stored PredictionResult — starting from a
state whose faceAgingResult holds an old prediction, selecting a new
image/png file leaves faceAgingResult at the old prediction. -/
theorem C1_counterexample :
    strStartsWith "image/png" "image/" = true ∧
    ((handleFileSelect
        { uploadedImage := some "data:image/png;base64,OLD",
          uploadedFile := some { type := "image/png", dataUrl := "data:image/png;base64,OLD" },
          isLoading := false, showCamera := false, stream := none,
          faceAgingResult := some "data:image/png;base64,PRED",
          isProcessingAging := false }
        { cachedImage := some "data:image/png;base64,OLD",
          cachedImageTimestamp := some 1000 }
        2000
        { type := "image/png", dataUrl := "data:image/png;base64,NEW" }).1).faceAgingResult
      = some "data:image/png;base64,PRED" :=
  ⟨rfl, rfl⟩

/-- C1 (amended): for every valid image file, handleFileSelect writes the
new data URL to both cache keys, sets uploadedImage and uploadedFile, and
notifies the upload callback with the new data URL; it leaves the stored
PredictionResult (faceAgingResult) unchanged rather than clearing it. -/
theorem C1_select_keeps_prediction (s : ComponentState) (c : Cache) (now : Nat)
    (f : FileV) (h : strStartsWith f.type "image/" = true) :
    handleFileSelect s c now f =
      ({ s with uploadedImage := some f.dataUrl, uploadedFile := some f,
                isLoading := false },
       { cachedImage := some f.dataUrl, cachedImageTimestamp := some now },
       [f.dataUrl]) ∧
    ((handleFileSelect s c now f).1).faceAgingResult = s.faceAgingResult := by
  simp [handleFileSelect, h]

/-- C1 witness: the amended statement evaluated on a concrete state holding
an old prediction and a concrete image/png file. -/
theorem C1_select_keeps_prediction_witness :
    ((handleFileSelect
        { uploadedImage := none, uploadedFile := none, isLoading := false,
          showCamera := false, stream := none,
          faceAgingResult := some "data:PRED", isProcessingAging := false }
        { cachedImage := none, cachedImageTimestamp := none } 7
        { type := "image/png", dataUrl := "data:NEW" }).1).faceAgingResult
      = some "data:PRED" :=
  (C1_select_keeps_prediction
    { uploadedImage := none, uploadedFile := none, isLoading := false,
      showCamera := false, stream := none,
      faceAgingResult := some "data:PRED", isProcessingAging := false }
    { cachedImage := none, cachedImageTimestamp := none } 7
    { type := "image/png", dataUrl := "data:NEW" } rfl).2

/-- C4: a cache entry written at time T with a (nonempty, per JS
truthiness) asset: reading it at any time strictly before T plus 24h
returns the stored asset (uploadedImage restored, callback fired, cache
kept); reading at T plus 24h plus 1ms or later surfaces nothing and
removes both cache keys. -/
theorem C4_cache_expiry (s : ComponentState) (img : String) (ts now : Nat)
    (himg : img ≠ "") :
    (now < ts + twentyFourHours →
      loadCachedImage s ⟨some img, some ts⟩ now =
        ({ s with uploadedImage := some img }, ⟨some img, some ts⟩, [img])) ∧
    (ts + twentyFourHours + 1 ≤ now →
      loadCachedImage s ⟨some img, some ts⟩ now = (s, ⟨none, none⟩, [])) := by
  constructor
  · intro h
    have hlt : now - ts < twentyFourHours := by
      simp only [twentyFourHours] at h ⊢; omega
    simp [loadCachedImage, himg, hlt]
  · intro h
    have hge : ¬(now - ts < twentyFourHours) := by
      simp only [twentyFourHours] at h ⊢; omega
    simp [loadCachedImage, himg, hge]

/-- C4 witness: an entry written at time 0 read at 5ms is returned, and
read at 86400001ms (24h plus 1ms) is purged. -/
theorem C4_cache_expiry_witness :
    loadCachedImage ⟨none, none, false, false, none, none, false⟩
        ⟨some "data:x", some 0⟩ 5 =
      (⟨some "data:x", none, false, false, none, none, false⟩,
       ⟨some "data:x", some 0⟩, ["data:x"]) ∧
    loadCachedImage ⟨none, none, false, false, none, none, false⟩
        ⟨some "data:x", some 0⟩ 86400001 =
      (⟨none, none, false, false, none, none, false⟩, ⟨none, none⟩, []) :=
  ⟨(C4_cache_expiry ⟨none, none, false, false, none, none, false⟩ "data:x" 0 5
      (by decide)).1 (by decide),
   (C4_cache_expiry ⟨none, none, false, false, none, none, false⟩ "data:x" 0 86400001
      (by decide)).2 (by decide)⟩

/-- C5: capturePhoto invoked while the video frame width or height is zero
produces no ImageAsset, does not mutate the cache, fires no callback and
leaves the component state unchanged. -/
theorem C5_capture_not_ready (video : VideoEl) (blob : Option String)
    (s : ComponentState) (c : Cache) (now : Nat)
    (h : video.videoWidth = 0 ∨ video.videoHeight = 0) :
    capturePhoto video blob s c now = (s, c, []) := by
  unfold capturePhoto
  rw [if_pos h]

/-- C5 witness: capture with a zero-width video frame on a concrete state
and cache returns both unchanged with no callback. -/
theorem C5_capture_not_ready_witness :
    capturePhoto ⟨0, 480⟩ (some "data:blob")
        ⟨none, none, false, true, some 1, none, false⟩ ⟨none, none⟩ 3 =
      (⟨none, none, false, true, some 1, none, false⟩, ⟨none, none⟩, []) :=
  C5_capture_not_ready ⟨0, 480⟩ (some "data:blob")
    ⟨none, none, false, true, some 1, none, false⟩ ⟨none, none⟩ 3 (Or.inl rfl)

/-- C6: after handleRemoveImage both cache keys are absent, uploadedImage,
uploadedFile and faceAgingResult are cleared, and the upload callback has
been invoked with the empty string. -/
theorem C6_remove_image (s : ComponentState) (c : Cache) :
    ((handleRemoveImage s c).2.1).cachedImage = none ∧
    ((handleRemoveImage s c).2.1).cachedImageTimestamp = none ∧
    ((handleRemoveImage s c).1).uploadedImage = none ∧
    ((handleRemoveImage s c).1).uploadedFile = none ∧
    ((handleRemoveImage s c).1).faceAgingResult = none ∧
    (handleRemoveImage s c).2.2 = [""] :=
  ⟨rfl, rfl, rfl, rfl, rfl, rfl⟩

/-- C7: selecting a valid image file (with a nonempty data URL) and then
reading the cache within 24 hours, with no intervening cache operation,
fires the callback with exactly the data URL that handleFileSelect
produced and leaves the state and cache as the write left them. -/
theorem C7_roundtrip (s : ComponentState) (c : Cache) (now now2 : Nat)
    (f : FileV) (htype : strStartsWith f.type "image/" = true)
    (hne : f.dataUrl ≠ "") (hfresh : now2 < now + twentyFourHours) :
    loadCachedImage (handleFileSelect s c now f).1
        (handleFileSelect s c now f).2.1 now2 =
      ((handleFileSelect s c now f).1, (handleFileSelect s c now f).2.1,
       [f.dataUrl]) := by
  have hsel : handleFileSelect s c now f =
      ({ s with uploadedImage := some f.dataUrl, uploadedFile := some f,
                isLoading := false },
       { cachedImage := some f.dataUrl, cachedImageTimestamp := some now },
       [f.dataUrl]) := by
    simp [handleFileSelect, htype]
  rw [hsel]
  have hlt : now2 - now < twentyFourHours := by
    simp only [twentyFourHours] at hfresh ⊢; omega
  simp [loadCachedImage, hne, hlt]

/-- C7 witness: a concrete image/png file written at time 0 and read one
hour later round-trips its data URL. -/
theorem C7_roundtrip_witness :
    loadCachedImage
        (handleFileSelect ⟨none, none, false, false, none, none, false⟩
          ⟨none, none⟩ 0 ⟨"image/png", "data:x"⟩).1
        (handleFileSelect ⟨none, none, false, false, none, none, false⟩
          ⟨none, none⟩ 0 ⟨"image/png", "data:x"⟩).2.1 3600000 =
      ((handleFileSelect ⟨none, none, false, false, none, none, false⟩
          ⟨none, none⟩ 0 ⟨"image/png", "data:x"⟩).1,
       (handleFileSelect ⟨none, none, false, false, none, none, false⟩
          ⟨none, none⟩ 0 ⟨"image/png", "data:x"⟩).2.1,
       ["data:x"]) :=
  C7_roundtrip ⟨none, none, false, false, none, none, false⟩ ⟨none, none⟩ 0
    3600000 ⟨"image/png", "data:x"⟩ rfl (by decide) (by decide)

/-- C2 counterexample: a request that passes validation whose downstream
call resolves but carries no base64 payload gets a 200 success reply with
a null prediction, not a PredictionFailed error. -/
theorem C2_counterexample :
    passesValidation (fun _ => some "parsed") true (some "img") (some "ctx") ∧
    (POST (fun _ => some "parsed") true (some "img") (some "ctx")
        (OpenAIOutcome.ok none) "ts").2 =
      ProxyResponse.ok none "dall-e-2" "ts" ∧
    statusOf (POST (fun _ => some "parsed") true (some "img") (some "ctx")
        (OpenAIOutcome.ok none) "ts").2 = 200 :=
  ⟨⟨rfl, ⟨"ctx", rfl, by decide, rfl⟩, rfl⟩, rfl, rfl⟩

/-- C2 (amended): for every request that passes validation, a downstream
call that throws (network error, quota, provider API error) makes the
proxy return the generic 500 PredictionFailed reply, whose body is the
fixed string and so never leaks the provider error body; a downstream call
that resolves without a base64 payload instead yields a 200 success with a
null prediction. -/
theorem C2_generic_failure (parseJson : String → Option String) (key : Bool)
    (image smash : Option String) (ts : String)
    (h : passesValidation parseJson key image smash) :
    (POST parseJson key image smash OpenAIOutcome.err ts).2 =
      ProxyResponse.err 500 "Failed to process face aging prediction" ∧
    (POST parseJson key image smash (OpenAIOutcome.ok none) ts).2 =
      ProxyResponse.ok none "dall-e-2" ts := by
  obtain ⟨hi, ⟨sm, hsm, hne, hp⟩, hk⟩ := h
  subst hsm
  subst hk
  obtain ⟨i, hi⟩ := Option.isSome_iff_exists.mp hi
  subst hi
  obtain ⟨v, hv⟩ := Option.isSome_iff_exists.mp hp
  constructor <;> simp [POST, hne, hv]

/-- C2 witness: the amended statement evaluated at a concrete validated
request. -/
theorem C2_generic_failure_witness :
    (POST (fun _ => some "parsed") true (some "img") (some "ctx")
        OpenAIOutcome.err "ts").2 =
      ProxyResponse.err 500 "Failed to process face aging prediction" ∧
    (POST (fun _ => some "parsed") true (some "img") (some "ctx")
        (OpenAIOutcome.ok none) "ts").2 =
      ProxyResponse.ok none "dall-e-2" "ts" :=
  C2_generic_failure (fun _ => some "parsed") true (some "img") (some "ctx")
    "ts" ⟨rfl, ⟨"ctx", rfl, by decide, rfl⟩, rfl⟩

/-- C3 counterexample: with the API key NOT configured, a request whose
image and context fields are both present but whose context is not valid
JSON is answered with the 500 ServiceUnavailable reply, not with the 400
MalformedContext reply the claim requires. -/
theorem C3_counterexample :
    (POST (fun _ => none) false (some "img") (some "notjson")
        OpenAIOutcome.err "ts").2 =
      ProxyResponse.err 500 "OpenAI API key not configured" ∧
    (POST (fun _ => none) false (some "img") (some "notjson")
        OpenAIOutcome.err "ts").2 ≠
      ProxyResponse.err 400 "Invalid JSON in smash data" :=
  ⟨rfl, by decide⟩

/-- C3 (amended): when both fields are present (the context nonempty, per
the JS truthiness test) AND the API key is configured, a context that
fails JSON parsing is answered with 400 Invalid JSON in smash data; and
the 500 ServiceUnavailable reply occurs exactly when both fields are
present (context nonempty) and the API key is not configured — the key
check runs before JSON parsing. -/
theorem C3_validation_order (parseJson : String → Option String) (key : Bool)
    (image smash : Option String) (outcome : OpenAIOutcome) (ts : String) :
    (∀ i sm, image = some i → smash = some sm → sm ≠ "" → key = true →
      parseJson sm = none →
      (POST parseJson key image smash outcome ts).2 =
        ProxyResponse.err 400 "Invalid JSON in smash data") ∧
    ((POST parseJson key image smash outcome ts).2 =
        ProxyResponse.err 500 "OpenAI API key not configured" ↔
      image.isSome = true ∧ (∃ sm, smash = some sm ∧ sm ≠ "") ∧ key = false) := by
  constructor
  · rintro i sm rfl rfl hne rfl hp
    simp [POST, hne, hp]
  · cases image with
    | none => simp [POST]
    | some i =>
      cases smash with
      | none => simp [POST]
      | some sm =>
        by_cases hne : sm = ""
        · subst hne
          simp [POST]
        · cases key with
          | false => simp [POST, hne]
          | true =>
            cases hp : parseJson sm with
            | none => simp [POST, hne, hp]
            | some v =>
              cases outcome with
              | err => simp [POST, hne, hp]
              | ok b64 => simp [POST, hne, hp]

/-- C3 witness: the amended statement evaluated at a concrete request with
the key configured and an unparsable context (the 400 branch), and the iff
checked at the same input. -/
theorem C3_validation_order_witness :
    (POST (fun _ => none) true (some "img") (some "notjson")
        OpenAIOutcome.err "ts").2 =
      ProxyResponse.err 400 "Invalid JSON in smash data" :=
  (C3_validation_order (fun _ => none) true (some "img") (some "notjson")
      OpenAIOutcome.err "ts").1 "img" "notjson" rfl rfl (by decide) rfl rfl

/-- C9: whenever the route makes the downstream generation call, the model
parameter it sends is gpt-image-1, while every 200 success reply reports
model_used as the constant dall-e-2, whatever the request contents. -/
theorem C9_model_mismatch (parseJson : String → Option String) (key : Bool)
    (image smash : Option String) (outcome : OpenAIOutcome) (ts : String) :
    (∀ g, (POST parseJson key image smash outcome ts).1 = some g →
      g.model = "gpt-image-1") ∧
    (∀ p m t, (POST parseJson key image smash outcome ts).2 =
        ProxyResponse.ok p m t → m = "dall-e-2") := by
  cases image with
  | none => simp [POST]
  | some i =>
    cases smash with
    | none => simp [POST]
    | some sm =>
      by_cases hne : sm = ""
      · subst hne
        simp [POST]
      · cases key with
        | false => simp [POST, hne]
        | true =>
          cases hp : parseJson sm with
          | none => simp [POST, hne, hp]
          | some v =>
            cases outcome with
            | err => simp [POST, hne, hp]
            | ok b64 => simp [POST, hne, hp]

/-- C9 witness: on a concrete validated request the downstream call is made
with model gpt-image-1 and the success reply carries model_used
dall-e-2. -/
theorem C9_model_mismatch_witness :
    ({ model := "gpt-image-1", n := 1, size := "1024x1024",
       quality := "medium" } : GenRequest).model = "gpt-image-1" ∧
    ("dall-e-2" : String) = "dall-e-2" := by
  have h := C9_model_mismatch (fun st => some st) true (some "img")
    (some "ctx") (OpenAIOutcome.ok (some "AAA")) "ts"
  exact ⟨h.1 { model := "gpt-image-1", n := 1, size := "1024x1024",
               quality := "medium" } rfl,
         h.2 (some "data:image/png;base64,AAA") "dall-e-2" "ts" rfl⟩

/-- C10: a validated request whose downstream call resolves without a
base64 payload gets the 200 reply with a null prediction; feeding that
reply to handleFaceAging on a state with an uploaded file overwrites any
previously stored faceAgingResult with none, and the rendered image falls
back to the original uploaded asset. -/
theorem C10_null_prediction (parseJson : String → Option String) (key : Bool)
    (image smash : Option String) (ts : String) (s : ComponentState)
    (hval : passesValidation parseJson key image smash)
    (hfile : s.uploadedFile.isSome = true) :
    (POST parseJson key image smash (OpenAIOutcome.ok none) ts).2 =
      ProxyResponse.ok none "dall-e-2" ts ∧
    statusOf (POST parseJson key image smash (OpenAIOutcome.ok none) ts).2 = 200 ∧
    (handleFaceAging s (ProxyResponse.ok none "dall-e-2" ts)).faceAgingResult
      = none ∧
    displayedImage (handleFaceAging s (ProxyResponse.ok none "dall-e-2" ts))
      = s.uploadedImage := by
  obtain ⟨hi, ⟨sm, hsm, hne, hp⟩, hk⟩ := hval
  subst hsm
  subst hk
  obtain ⟨i, hi⟩ := Option.isSome_iff_exists.mp hi
  subst hi
  obtain ⟨v, hv⟩ := Option.isSome_iff_exists.mp hp
  obtain ⟨f, hf⟩ := Option.isSome_iff_exists.mp hfile
  refine ⟨?_, ?_, ?_, ?_⟩ <;>
    simp [POST, hne, hv, statusOf, handleFaceAging, hf, displayedImage]

/-- C10 witness: the statement evaluated on a concrete validated request
and a concrete state holding an old prediction, which is overwritten with
none and the display reverts to the uploaded image. -/
theorem C10_null_prediction_witness :
    (POST (fun _ => some "parsed") true (some "img") (some "ctx")
        (OpenAIOutcome.ok none) "ts").2 =
      ProxyResponse.ok none "dall-e-2" "ts" ∧
    statusOf (POST (fun _ => some "parsed") true (some "img") (some "ctx")
        (OpenAIOutcome.ok none) "ts").2 = 200 ∧
    (handleFaceAging
        ⟨some "data:orig", some ⟨"image/png", "data:orig"⟩, false, false,
         none, some "data:oldpred", false⟩
        (ProxyResponse.ok none "dall-e-2" "ts")).faceAgingResult = none ∧
    displayedImage (handleFaceAging
        ⟨some "data:orig", some ⟨"image/png", "data:orig"⟩, false, false,
         none, some "data:oldpred", false⟩
        (ProxyResponse.ok none "dall-e-2" "ts")) = some "data:orig" :=
  C10_null_prediction (fun _ => some "parsed") true (some "img") (some "ctx")
    "ts"
    ⟨some "data:orig", some ⟨"image/png", "data:orig"⟩, false, false, none,
     some "data:oldpred", false⟩
    ⟨rfl, ⟨"ctx", rfl, by decide, rfl⟩, rfl⟩ rfl

/-- C8 counterexample: in the trace of two successive successful
handleCameraClick calls, right after the second getUserMedia resolves
(trace prefix of length 2) both the first and the second stream are live
at the same time — the prior stream is only stopped by the effect cleanup
that runs after the new one is already open. -/
theorem C8_counterexample :
    (twoActivations 1 2).take 2 = [CamEv.acquire 1, CamEv.acquire 2] ∧
    liveAfter ((twoActivations 1 2).take 2) 1 ∧
    liveAfter ((twoActivations 1 2).take 2) 2 := by
  decide

/-- C8 (amended): calling handleCameraClick twice in succession leaves,
once the second state update and its effect cleanup have completed, only
the newly acquired stream live: the prior stream has had its tracks
stopped — but that stop happens after the new stream is opened, so two
streams are transiently live in between. -/
theorem C8_single_stream (n m : Nat) (h : n ≠ m) :
    liveAfter (twoActivations n m) m ∧ ¬liveAfter (twoActivations n m) n := by
  have h2 : m ≠ n := h.symm
  simp [twoActivations, activateCameraEvents, liveAfter, h, h2]

/-- C8 witness: after two concrete successive activations only the second
stream is live. -/
theorem C8_single_stream_witness :
    liveAfter (twoActivations 1 2) 2 ∧ ¬liveAfter (twoActivations 1 2) 1 :=
  C8_single_stream 1 2 (by decide)

end MirrorMed
